import Mathlib

/-!
Verification of the ICD-11 clinical-coding chat application (`app.py`).

The development shallowly embeds the two Python functions that hold all of
the program's logic:

* `query_icd_11_api` (app.py lines 121-150): authenticates against the WHO
  token endpoint, then loops over the whitespace-split input issuing one
  search request per token.  Network I/O is made explicit: the environment
  (`IcdEnv`) fixes the responses of the two endpoints, and each function
  returns, alongside its result, the trace of requests it issued.
* `generate_response` (app.py lines 46-113): one dialogue turn — append
  the user message, call the LLM with the tool declarations, optionally
  dispatch the single honored tool call and re-query the LLM, and return
  text plus token counts.  Exceptions are modelled with `Except String`
  (the string standing for `str(e)`); Python's mutation of
  `st.session_state["messages"]` becomes explicit state passing.

Python dicts are modelled as insertion-ordered association lists, JSON
serialization (`json.dumps`) as the structured value itself.
-/

namespace App

/-- Python dict read `d[k]`: `none` models a raised `KeyError`. -/
def dictGet {α β : Type} [DecidableEq α] : List (α × β) → α → Option β
  | [], _ => none
  | (k, v) :: rest, k0 => if k = k0 then some v else dictGet rest k0

/-- Python dict write `d[k] = v` (also `d.update({k: v})`): replace in
place when the key is present, append otherwise. -/
def dictSet {α β : Type} [DecidableEq α] : List (α × β) → α → β → List (α × β)
  | [], k, v => [(k, v)]
  | (k1, v1) :: rest, k, v =>
    if k1 = k then (k, v) :: rest else (k1, v1) :: dictSet rest k v

/-- The whitespace characters `str.split()` splits on (ASCII range). -/
def isPySpace (c : Char) : Bool :=
  c = ' ' || c = '\t' || c = '\n' || c = '\r' || c = '\x0b' || c = '\x0c'

/-- Helper for `pySplit`: accumulates the current word (reversed). -/
def splitWordsAux : List Char → List Char → List (List Char)
  | [], acc => if acc.isEmpty then [] else [acc.reverse]
  | c :: cs, acc =>
    if isPySpace c then
      if acc.isEmpty then splitWordsAux cs [] else acc.reverse :: splitWordsAux cs []
    else splitWordsAux cs (c :: acc)

/-- Python `input.split()`: split on runs of whitespace, no empty tokens. -/
def pySplit (s : String) : List String :=
  (splitWordsAux s.toList []).map String.mk

/-- Python `word.replace(",", "")`: removes every comma. -/
def stripCommas (w : String) : String :=
  String.mk (w.toList.filter fun c => !(c = ','))

/-- One element of the search response's `destinationEntities`.  The Python
code reads both fields with `.get`, which yields `None` when absent. -/
structure Entity where
  theCode : Option String
  id : Option String

/-- Response of the code-search endpoint: HTTP status plus decoded body. -/
structure SearchResponse where
  status_code : Nat
  destinationEntities : List Entity

/-- The external world seen by `query_icd_11_api`: the token endpoint's
response (just whether it carries an `access_token`) and the search
endpoint's response for each query string. -/
structure IcdEnv where
  access_token : Option String
  search : String → SearchResponse

/-- One network request or capability dispatch, recorded in traces. -/
inductive Request where
  | auth
  | search (q : String)
  | llmCall (withTools : Bool)
  | capInvoke (name : String)
deriving DecidableEq

/-- The inner Python dict `code_mappings[word]`: code ↦ link.  Both sides
come from `.get`, hence may be `None`. -/
abbrev InnerDict := List (Option String × Option String)

/-- The outer Python dict `code_mappings`: token ↦ inner dict. -/
abbrev CodeDict := List (String × InnerDict)

/-- The inner `for code_ in potential_codes` loop (app.py lines 144-147):
each step performs `code_mappings[word].update({code: link})`, i.e. a read
of `code_mappings[word]` (KeyError when absent — `Except.error`) followed
by an update of that inner dict. -/
def updateEntities (w : String) : CodeDict → List Entity → Except String CodeDict
  | cm, [] => .ok cm
  | cm, e :: rest =>
    match dictGet cm w with
    | none => .error ("KeyError: " ++ w)
    | some inner => updateEntities w (dictSet cm w (dictSet inner e.theCode e.id)) rest

/-- The `for word in input.split()` loop (app.py lines 132-150).  Every
path of the loop body ends in `return`, so the loop never reaches a second
iteration; the embedding mirrors this with no recursive call.
`.ok (some cm)` models `return json.dumps(code_mappings)`,
`.ok none` models `return None` (and the loop running zero times). -/
def lookupLoop (env : IcdEnv) : List String → CodeDict → List Request →
    Except String (Option CodeDict) × List Request
  | [], _, trace => (.ok none, trace)
  | word :: _, cm, trace =>
    let cm1 := dictSet cm word []
    let word1 := stripCommas word
    let response := env.search word1
    let trace1 := trace ++ [Request.search word1]
    if response.status_code = 200 then
      match updateEntities word1 cm1 response.destinationEntities with
      | .error e => (.error e, trace1)
      | .ok cm2 => (.ok (some cm2), trace1)
    else
      (.ok none, trace1)

/-- app.py lines 121-150.  The token request is always issued first; a
response without `access_token` raises `KeyError` at line 130.  The
parameter is `Option String` because the caller passes
`function_args.get("input")`, which can be `None`; `None.split()` then
raises `AttributeError` (after the token request already went out). -/
def query_icd_11_api (env : IcdEnv) (input : Option String) :
    Except String (Option CodeDict) × List Request :=
  match env.access_token with
  | none => (.error "KeyError: access_token", [Request.auth])
  | some _ =>
    match input with
    | none => (.error "AttributeError: NoneType has no attribute split", [Request.auth])
    | some s => lookupLoop env (pySplit s) [] [Request.auth]

/-- Token counts of one chat completion (`completion.usage`). -/
structure Usage where
  total_tokens : Nat
  prompt_tokens : Nat
  completion_tokens : Nat

/-- A parsed JSON object of string fields, the shape of this tool's
arguments (schema: `input`, `unit`, both strings). -/
abbrev Args := List (String × String)

/-- One entry of `completion.choices[0].message.tool_calls`.  The
`arguments` field models `json.loads(function.arguments)`: either the
parsed object or the parse error it raises. -/
structure ToolCall where
  id : String
  name : String
  arguments : Except String Args

/-- The parts of `completion.choices[0]` the program reads. -/
structure Completion where
  content : Option String
  finish_reason : String
  tool_calls : List ToolCall
  usage : Usage

/-- One element of `st.session_state["messages"]`: the seed system dict,
user dicts, the raw assistant message object appended at line 81, and the
tool-result dict of lines 89-96 (whose `content` is the lookup's return
value — a JSON string or `None`). -/
inductive ChatMsg where
  | system (content : String)
  | user (content : String)
  | assistantRaw (content : Option String) (tool_calls : List ToolCall)
  | tool (tool_call_id : String) (name : String) (content : Option CodeDict)

/-- The external world of one turn: the LLM endpoint (a function of the
messages sent and of whether the tool declarations were passed) and the
ICD endpoints.  `Except.error` models the client call raising. -/
structure Env where
  llm : List ChatMsg → Bool → Except String Completion
  icd : IcdEnv
  deployment : String

/-- What `generate_response` does for its caller: `ok` is the returned
4-tuple `(response, total_tokens, prompt_tokens, completion_tokens)`
(each count is `Option` because the `except` block assigns `None`, though
lines 110-112 then overwrite them); `crash` is an exception escaping the
function — the `UnboundLocalError` raised at line 110 when `completion`
was never assigned. -/
inductive TurnResult where
  | ok (text : Option String)
      (total_tokens prompt_tokens completion_tokens : Option Nat)
  | crash

/-- The f-string of app.py line 106. -/
def errWrap (e : String) : String :=
  "The API could not handle this content: " ++ e

/-- app.py lines 46-113, one dialogue turn.  Returns the result, the new
`st.session_state["messages"]`, and the trace of external calls.  Every
`except` path falls through to lines 110-112, which re-read
`completion.usage`: when the first LLM call itself failed, `completion`
is unbound and the fallthrough raises (`TurnResult.crash`); in every
other path the returned counts are the FIRST call's usage. -/
def generate_response (env : Env) (messages0 : List ChatMsg) (prompt : String) :
    TurnResult × List ChatMsg × List Request :=
  let messages1 := messages0 ++ [ChatMsg.user prompt]
  match env.llm messages1 true with
  | .error _ => (TurnResult.crash, messages1, [Request.llmCall true])
  | .ok completion =>
    let t := some completion.usage.total_tokens
    let p := some completion.usage.prompt_tokens
    let c := some completion.usage.completion_tokens
    if completion.finish_reason = "tool_calls" then
      let messages2 :=
        messages1 ++ [ChatMsg.assistantRaw completion.content completion.tool_calls]
      match completion.tool_calls.head? with
      | none =>
        (TurnResult.ok (some (errWrap "IndexError: tool_calls")) t p c,
         messages2, [Request.llmCall true])
      | some tc =>
        if tc.name = "query_icd_11_api" then
          match tc.arguments with
          | .error e =>
            (TurnResult.ok (some (errWrap e)) t p c, messages2, [Request.llmCall true])
          | .ok args =>
            match query_icd_11_api env.icd (dictGet args "input") with
            | (.error e, reqs) =>
              (TurnResult.ok (some (errWrap e)) t p c, messages2,
               Request.llmCall true :: Request.capInvoke tc.name :: reqs)
            | (.ok result, reqs) =>
              let messages3 := messages2 ++ [ChatMsg.tool tc.id tc.name result]
              match env.llm messages3 false with
              | .error e =>
                (TurnResult.ok (some (errWrap e)) t p c, messages3,
                 Request.llmCall true :: Request.capInvoke tc.name ::
                   (reqs ++ [Request.llmCall false]))
              | .ok second =>
                (TurnResult.ok second.content t p c, messages3,
                 Request.llmCall true :: Request.capInvoke tc.name ::
                   (reqs ++ [Request.llmCall false]))
        else
          (TurnResult.ok (some (errWrap ("KeyError: " ++ tc.name))) t p c,
           messages2, [Request.llmCall true])
    else
      (TurnResult.ok completion.content t p c, messages1, [Request.llmCall true])

/-- The per-session display/transcript state (app.py lines 26-34). -/
structure SessionState where
  generated : List (Option String)
  past : List String
  messages : List ChatMsg
  model_name : List String

/-- app.py lines 164-170: one submitted turn of the page script.  When
`generate_response` raises, the script run aborts before the appends of
lines 168-170, but the mutation of `messages` already happened. -/
def rendererStep (env : Env) (st : SessionState) (user_input : String) :
    SessionState :=
  match generate_response env st.messages user_input with
  | (TurnResult.crash, msgs, _) => { st with messages := msgs }
  | (TurnResult.ok text _ _ _, msgs, _) =>
    { generated := st.generated ++ [text]
      past := st.past ++ [user_input]
      messages := msgs
      model_name := st.model_name ++ [env.deployment] }

/-- The session-level operations that touch `st.session_state["messages"]`:
a submitted turn, or the Clear Conversation button (app.py lines 39-44),
which reseeds the list with a single system message built from the
sidebar's current system prompt. -/
inductive SessionOp where
  | turn (env : Env) (prompt : String)
  | clear (system_prompt : String)

/-- Effect of one session operation on the messages list. -/
def applyOp (msgs : List ChatMsg) : SessionOp → List ChatMsg
  | .turn env prompt => (generate_response env msgs prompt).2.1
  | .clear sp => [ChatMsg.system sp]

/-- A whole session: the initial seed (line 32) followed by operations. -/
def runOps (msgs : List ChatMsg) (ops : List SessionOp) : List ChatMsg :=
  ops.foldl applyOp msgs

/-- The system prompt whose seed message should sit at index 0: the
initial one until a clear, then the prompt of the latest clear. -/
def currentSystemPrompt (sp0 : String) (ops : List SessionOp) : String :=
  ops.foldl (fun sp op => match op with | .clear sp1 => sp1 | _ => sp) sp0

/-! Concrete environments used to evaluate the embedding at the inputs
the individual claims talk about. -/

/-- ICD endpoints where searching for "fever" succeeds with the single
entity MG26 and every other query 404s. -/
def c1Icd : IcdEnv :=
  { access_token := some "tok"
    search := fun q =>
      if q = "fever" then
        { status_code := 200
          destinationEntities :=
            [{ theCode := some "MG26", id := some "http://id.who.int/icd/1" }] }
      else { status_code := 404, destinationEntities := [] } }

/-- ICD endpoints whose search always answers HTTP 500. -/
def c2IcdA : IcdEnv :=
  { access_token := some "tok"
    search := fun _ => { status_code := 500, destinationEntities := [] } }

/-- ICD endpoints whose search always answers HTTP 404. -/
def c2IcdB : IcdEnv :=
  { access_token := some "tok"
    search := fun _ => { status_code := 404, destinationEntities := [] } }

/-- ICD endpoints where every search succeeds with the single entity
MG26. -/
def c3Icd : IcdEnv :=
  { access_token := some "tok"
    search := fun _ =>
      { status_code := 200
        destinationEntities :=
          [{ theCode := some "MG26", id := some "http://id.who.int/icd/1" }] } }

/-- A tool call requesting the lookup of "fever". -/
def c4ToolCall : ToolCall :=
  { id := "call_1", name := "query_icd_11_api", arguments := .ok [("input", "fever")] }

/-- Token endpoint whose response has no `access_token` (the auth-failure
scenario): line 130 of app.py then raises `KeyError`. -/
def c4IcdA : IcdEnv :=
  { access_token := none
    search := fun _ => { status_code := 500, destinationEntities := [] } }

/-- A turn whose first LLM response requests the lookup capability while
the ICD authentication fails. -/
def c4EnvA : Env :=
  { llm := fun _ withTools =>
      if withTools then
        .ok { content := none, finish_reason := "tool_calls"
              tool_calls := [c4ToolCall]
              usage := { total_tokens := 100, prompt_tokens := 70, completion_tokens := 30 } }
      else
        .ok { content := some "final", finish_reason := "stop", tool_calls := []
              usage := { total_tokens := 1, prompt_tokens := 1, completion_tokens := 0 } }
    icd := c4IcdA
    deployment := "gpt-4" }

/-- A turn whose very first LLM call raises (network fault). -/
def c4EnvB : Env :=
  { llm := fun _ _ => .error "APIConnectionError", icd := c4IcdA, deployment := "gpt-4" }

/-- First tool call of the C5 scenario (lookup of "fever"). -/
def c5Tc1 : ToolCall :=
  { id := "call_1", name := "query_icd_11_api", arguments := .ok [("input", "fever")] }

/-- A second, simultaneous tool call, which the program must ignore. -/
def c5Tc2 : ToolCall :=
  { id := "call_2", name := "query_icd_11_api", arguments := .ok [("input", "cough")] }

/-- First LLM response of the C5 scenario: a capability request listing
two tool calls. -/
def c5Comp1 : Completion :=
  { content := none, finish_reason := "tool_calls", tool_calls := [c5Tc1, c5Tc2]
    usage := { total_tokens := 100, prompt_tokens := 70, completion_tokens := 30 } }

/-- Second LLM response of the C5 scenario, with its own distinct usage
(which the program must NOT report). -/
def c5Comp2 : Completion :=
  { content := some "The suggested code is MG26", finish_reason := "stop", tool_calls := []
    usage := { total_tokens := 7, prompt_tokens := 5, completion_tokens := 2 } }

/-- ICD endpoints for the C5 scenario: every search succeeds with MG26. -/
def c5Icd : IcdEnv :=
  { access_token := some "tok"
    search := fun _ =>
      { status_code := 200
        destinationEntities :=
          [{ theCode := some "MG26", id := some "http://id.who.int/icd/1" }] } }

/-- Environment of the C5 scenario: the first call (with tools) requests
the capability twice, the second call (without tools) answers. -/
def c5Env : Env :=
  { llm := fun _ withTools => if withTools then .ok c5Comp1 else .ok c5Comp2
    icd := c5Icd
    deployment := "gpt-4" }

/-- Environment whose LLM always answers directly (no tool call). -/
def c6Env : Env :=
  { llm := fun _ _ =>
      .ok { content := some "Hello", finish_reason := "stop", tool_calls := []
            usage := { total_tokens := 12, prompt_tokens := 8, completion_tokens := 4 } }
    icd := c2IcdB
    deployment := "gpt-4" }

/-- Environment whose LLM answers directly with the text "Answer A". -/
def c9Env : Env :=
  { llm := fun _ _ =>
      .ok { content := some "Answer A", finish_reason := "stop", tool_calls := []
            usage := { total_tokens := 30, prompt_tokens := 20, completion_tokens := 10 } }
    icd := { access_token := some "tok"
             search := fun _ => { status_code := 500, destinationEntities := [] } }
    deployment := "gpt-4" }

/-- The shapes a turn can add to the messages list after the user
message: nothing (direct answer), the raw assistant tool-call message
(capability turn failing before the tool result), or that message plus
the tool result (capability turn).  In particular no shape carries the
turn's final assistant text as a transcript entry. -/
def appendedShape : List ChatMsg → Bool
  | [] => true
  | [ChatMsg.assistantRaw _ _] => true
  | [ChatMsg.assistantRaw _ _, ChatMsg.tool _ _ _] => true
  | _ => false

/-- The tool call of the C9 capability-turn scenario. -/
def c9CapToolCall : ToolCall :=
  { id := "call_9", name := "query_icd_11_api", arguments := .ok [("input", "fever")] }

/-- First LLM response of the C9 capability-turn scenario. -/
def c9CapComp1 : Completion :=
  { content := none, finish_reason := "tool_calls", tool_calls := [c9CapToolCall]
    usage := { total_tokens := 100, prompt_tokens := 70, completion_tokens := 30 } }

/-- Second LLM response of the C9 capability-turn scenario: the final
answer "Answer A". -/
def c9CapComp2 : Completion :=
  { content := some "Answer A", finish_reason := "stop", tool_calls := []
    usage := { total_tokens := 7, prompt_tokens := 5, completion_tokens := 2 } }

/-- Environment of the C9 capability-turn scenario: the first call
requests the lookup, the lookup succeeds with MG26, the second call
answers "Answer A". -/
def c9CapEnv : Env :=
  { llm := fun _ withTools => if withTools then .ok c9CapComp1 else .ok c9CapComp2
    icd := { access_token := some "tok"
             search := fun _ =>
               { status_code := 200
                 destinationEntities :=
                   [{ theCode := some "MG26", id := some "http://id.who.int/icd/1" }] } }
    deployment := "gpt-4" }

/-- ICD endpoints (valid token, search always 500) used to compare the
blank-input outcome with a genuine non-200 failure. -/
def c10FailIcd : IcdEnv :=
  { access_token := some "tok"
    search := fun _ => { status_code := 500, destinationEntities := [] } }

/-! Helper lemmas shared by several claims. -/

/-- The only key `updateEntities` ever touches in a singleton dict is the
one already present: a successful run preserves the key set. -/
theorem updateEntities_singleton (w w1 : String) :
    ∀ (es : List Entity) (inner : InnerDict) (cm2 : CodeDict),
      updateEntities w [(w1, inner)] es = .ok cm2 → ∃ inner2, cm2 = [(w1, inner2)] := by
  intro es
  induction es with
  | nil =>
    intro inner cm2 h
    refine ⟨inner, ?_⟩
    simpa [updateEntities] using h.symm
  | cons e rest ih =>
    intro inner cm2 h
    by_cases hw : w1 = w
    · subst hw
      simp [updateEntities, dictGet, dictSet] at h
      exact ih _ _ h
    · simp [updateEntities, dictGet, hw] at h

/-- Whatever happens during a turn, `generate_response` only ever appends
to the messages list: the prior transcript followed by the new user
message is a prefix of the resulting transcript. -/
theorem gr_messages_append (env : Env) (msgs : List ChatMsg) (prompt : String) :
    ∃ suffix, (generate_response env msgs prompt).2.1 =
      msgs ++ (ChatMsg.user prompt :: suffix) := by
  unfold generate_response
  simp only []
  repeat' split
  all_goals simp only [List.append_assoc, List.cons_append, List.nil_append,
    List.singleton_append]
  all_goals exact ⟨_, rfl⟩

/-- What a turn appends to the messages list beyond the user message is
always one of the three `appendedShape` forms: nothing, the raw
assistant tool-call message, or that message followed by the tool
result.  Every branch of `generate_response` is covered. -/
theorem gr_messages_shape (env : Env) (msgs0 : List ChatMsg) (prompt : String) :
    ∃ suffix, (generate_response env msgs0 prompt).2.1 =
        msgs0 ++ (ChatMsg.user prompt :: suffix) ∧ appendedShape suffix = true := by
  unfold generate_response
  simp only []
  repeat' split
  all_goals simp only [List.append_assoc, List.cons_append, List.nil_append,
    List.singleton_append]
  all_goals exact ⟨_, rfl, rfl⟩

/-- A direct-answer turn: first LLM response not a tool call means the
function returns its content plus its usage, appends only the user
message, and issues exactly one external call. -/
theorem gr_direct_answer (env : Env) (messages0 : List ChatMsg) (prompt : String)
    (completion : Completion)
    (h1 : env.llm (messages0 ++ [ChatMsg.user prompt]) true = .ok completion)
    (h2 : completion.finish_reason ≠ "tool_calls") :
    generate_response env messages0 prompt =
      (TurnResult.ok completion.content (some completion.usage.total_tokens)
        (some completion.usage.prompt_tokens) (some completion.usage.completion_tokens),
       messages0 ++ [ChatMsg.user prompt], [Request.llmCall true]) := by
  unfold generate_response
  simp only []
  rw [h1]
  simp only []
  rw [if_neg h2]

/-- Along a run of session operations, a system message at the head of
the transcript stays there, tracking the latest clear's prompt. -/
theorem runOps_head (ops : List SessionOp) :
    ∀ (msgs : List ChatMsg) (sp : String),
      msgs.head? = some (ChatMsg.system sp) →
      (runOps msgs ops).head? = some (ChatMsg.system (currentSystemPrompt sp ops)) := by
  induction ops with
  | nil => intro msgs sp h; simpa [runOps, currentSystemPrompt] using h
  | cons op rest ih =>
    intro msgs sp h
    have hrun : runOps msgs (op :: rest) = runOps (applyOp msgs op) rest := by
      simp [runOps, List.foldl]
    rw [hrun]
    cases op with
    | turn env prompt =>
      have hcur : currentSystemPrompt sp (SessionOp.turn env prompt :: rest) =
          currentSystemPrompt sp rest := by
        simp [currentSystemPrompt, List.foldl]
      rw [hcur]
      apply ih
      obtain ⟨suffix, hs⟩ := gr_messages_append env msgs prompt
      cases msgs with
      | nil => simp at h
      | cons m ms =>
        simp at h
        subst h
        have happ : applyOp (ChatMsg.system sp :: ms) (SessionOp.turn env prompt) =
            ChatMsg.system sp :: (ms ++ ChatMsg.user prompt :: suffix) := by
          simpa [applyOp] using hs
        rw [happ]
        rfl
    | clear sp1 =>
      have hcur : currentSystemPrompt sp (SessionOp.clear sp1 :: rest) =
          currentSystemPrompt sp1 rest := by
        simp [currentSystemPrompt, List.foldl]
      rw [hcur]
      apply ih
      simp [applyOp]

/-! The claims. -/

/-- C1: for the input "fever, cough" with the search for "fever"
answering 200 with destinationEntities containing MG26, the lookup
strips the trailing comma and queries "fever" first and never queries
"cough" (the trace is exactly the token request followed by the single
search for "fever") — but instead of returning the claimed mapping under
the key "fever", it raises `KeyError` ("fever"): line 133 of app.py
created the entry under the unstripped token "fever," and line 147 then
reads `code_mappings` at the comma-stripped word.  The exception
propagates to `generate_response`'s handler, contradicting both the
claim and the code's own tool description ("It returns a dictionary that
contains the input word and the corresponding ICD-11 code and web
link"), so the code, not the claim, is at fault. -/
theorem c1_lookup_keyerror_on_comma_token :
    query_icd_11_api c1Icd (some "fever, cough") =
      (.error "KeyError: fever", [Request.auth, Request.search "fever"]) := by
  rfl

/-- C2, counterexample: the claim says a non-200 search makes the lookup
return a failure signal carrying the failed token and the HTTP status
code.  In fact the function returns the bare `None` of app.py line 150:
the run that fails on token "aspirin" with status 500 and the run that
fails on token "bbb" with status 404 return the very same value, which
therefore carries neither the token nor the status code. -/
theorem c2_failure_signal_counterexample :
    (query_icd_11_api c2IcdA (some "aspirin overdose")).1 =
        (query_icd_11_api c2IcdB (some "bbb")).1 ∧
      (query_icd_11_api c2IcdA (some "aspirin overdose")).1 =
        Except.ok (none : Option CodeDict) := by
  exact ⟨rfl, rfl⟩

/-- C2, amended: if the search for the first-attempted token returns a
non-200 status, the lookup terminates immediately and returns `None` — a
bare failure result carrying neither the failed token nor the status
code, and not an empty mapping — and no search is issued for any later
token (the trace ends with that single search). -/
theorem c2_non200_returns_bare_none (env : IcdEnv) (tok w1 : String)
    (rest : List String) (input : String)
    (hauth : env.access_token = some tok)
    (hsplit : pySplit input = w1 :: rest)
    (hstatus : (env.search (stripCommas w1)).status_code ≠ 200) :
    query_icd_11_api env (some input) =
      (.ok none, [Request.auth, Request.search (stripCommas w1)]) := by
  unfold query_icd_11_api
  rw [hauth]
  simp only []
  rw [hsplit]
  unfold lookupLoop
  simp only []
  rw [if_neg hstatus]
  rfl

/-- C2, witness for the amended claim: input "aspirin overdose" with the
search for "aspirin" answering 500 yields `None` after exactly one
search. -/
theorem c2_non200_returns_bare_none_witness :
    query_icd_11_api c2IcdA (some "aspirin overdose") =
      (.ok none, [Request.auth, Request.search (stripCommas "aspirin")]) :=
  c2_non200_returns_bare_none c2IcdA "tok" "aspirin" ["overdose"] "aspirin overdose"
    rfl rfl (by decide)

/-- C3: whenever the lookup returns a mapping, its key set is contained
in the whitespace-split tokens of the input, it holds at most one
token's entry, and the function returned immediately after the first
token: that token's search answered 200 and the request trace consists
of the token request followed by that one search — no later token was
ever queried. -/
theorem c3_success_single_token_mapping (env : IcdEnv) (input : String)
    (d : CodeDict) (trace : List Request)
    (h : query_icd_11_api env (some input) = (.ok (some d), trace)) :
    d.map Prod.fst ⊆ pySplit input ∧ d.length ≤ 1 ∧
      ∃ w1 rest, pySplit input = w1 :: rest ∧
        (env.search (stripCommas w1)).status_code = 200 ∧
        trace = [Request.auth, Request.search (stripCommas w1)] := by
  unfold query_icd_11_api at h
  rcases htok : env.access_token with _ | tok
  · rw [htok] at h; exact absurd (congrArg Prod.fst h) (by simp)
  · rw [htok] at h
    simp only [] at h
    rcases hsplit : pySplit input with _ | ⟨w1, rest⟩
    · rw [hsplit] at h
      simp [lookupLoop] at h
    · rw [hsplit] at h
      unfold lookupLoop at h
      simp only [] at h
      by_cases hstatus : (env.search (stripCommas w1)).status_code = 200
      · rw [if_pos hstatus] at h
        rcases hupd : updateEntities (stripCommas w1) (dictSet [] w1 [])
            (env.search (stripCommas w1)).destinationEntities with e | cm2
        · rw [hupd] at h; exact absurd (congrArg Prod.fst h) (by simp)
        · rw [hupd] at h
          have hd : cm2 = d := by
            have := congrArg Prod.fst h; simpa using this
          have htr : trace = [Request.auth, Request.search (stripCommas w1)] := by
            have := congrArg Prod.snd h; simpa using this.symm
          obtain ⟨inner2, hinner⟩ :=
            updateEntities_singleton (stripCommas w1) w1 _ _ _ hupd
          subst hd
          refine ⟨?_, ?_, w1, rest, rfl, hstatus, htr⟩
          · rw [hinner]; intro x hx; simp at hx; subst hx; simp
          · rw [hinner]; simp
      · rw [if_neg hstatus] at h
        exact absurd (congrArg Prod.fst h) (by simp)

/-- C3, witness: a successful lookup of "fever" against `c3Icd` returns
the one-entry mapping for "fever" after exactly one search. -/
theorem c3_success_single_token_mapping_witness :
    ([("fever", [(some "MG26", some "http://id.who.int/icd/1")])] : CodeDict).map
        Prod.fst ⊆ pySplit "fever" ∧
      ([("fever", [(some "MG26", some "http://id.who.int/icd/1")])] : CodeDict).length ≤ 1 ∧
      ∃ w1 rest, pySplit "fever" = w1 :: rest ∧
        (c3Icd.search (stripCommas w1)).status_code = 200 ∧
        [Request.auth, Request.search "fever"] =
          [Request.auth, Request.search (stripCommas w1)] :=
  c3_success_single_token_mapping c3Icd "fever"
    [("fever", [(some "MG26", some "http://id.who.int/icd/1")])]
    [Request.auth, Request.search "fever"] rfl

/-- C4: the claim says every exception of a turn is caught inside
`generate_response` and the turn reports all usage counts as `None`.
The code's `except` block does assign `None`, but control then falls
through to app.py lines 110-112, which re-read `completion.usage`.
Evaluating the embedding shows both divergences.  First conjunct: a turn
whose capability execution hits an authentication failure (token
response without `access_token`) returns the error text, yet the FIRST
call's usage counts (100, 70, 30) — not `None`.  Second conjunct: a turn
whose first LLM call itself raises reaches line 110 with `completion`
never assigned, so an `UnboundLocalError` escapes `generate_response` —
the turn crashes instead of returning a message.  The `except` block's
dead `None` assignments show the claim matches the code's intent, so the
code is at fault. -/
theorem c4_exception_paths_eval :
    generate_response c4EnvA [ChatMsg.system "s"] "code fever" =
        (TurnResult.ok
          (some "The API could not handle this content: KeyError: access_token")
          (some 100) (some 70) (some 30),
         [ChatMsg.system "s", ChatMsg.user "code fever",
          ChatMsg.assistantRaw none [c4ToolCall]],
         [Request.llmCall true, Request.capInvoke "query_icd_11_api", Request.auth]) ∧
      generate_response c4EnvB [ChatMsg.system "s"] "hi" =
        (TurnResult.crash, [ChatMsg.system "s", ChatMsg.user "hi"],
         [Request.llmCall true]) := by
  exact ⟨rfl, rfl⟩

/-- C5: when the first LLM response requests capability invocations,
only the first listed call is dispatched (the trace holds exactly one
`capInvoke`, for the head of `tool_calls`, whatever else the list
holds), the second LLM call goes out without tool declarations, and the
turn returns the second response's content with the FIRST call's usage
counts. -/
theorem c5_single_dispatch_first_usage (env : Env) (messages0 : List ChatMsg)
    (prompt : String) (completion : Completion) (tc : ToolCall)
    (rest : List ToolCall) (args : Args) (d : Option CodeDict)
    (reqs : List Request) (second : Completion)
    (h1 : env.llm (messages0 ++ [ChatMsg.user prompt]) true = .ok completion)
    (h2 : completion.finish_reason = "tool_calls")
    (h3 : completion.tool_calls = tc :: rest)
    (h4 : tc.name = "query_icd_11_api")
    (h5 : tc.arguments = .ok args)
    (h6 : query_icd_11_api env.icd (dictGet args "input") = (.ok d, reqs))
    (h7 : env.llm (messages0 ++ [ChatMsg.user prompt] ++
            [ChatMsg.assistantRaw completion.content completion.tool_calls] ++
            [ChatMsg.tool tc.id tc.name d]) false = .ok second) :
    generate_response env messages0 prompt =
      (TurnResult.ok second.content (some completion.usage.total_tokens)
        (some completion.usage.prompt_tokens) (some completion.usage.completion_tokens),
       messages0 ++ [ChatMsg.user prompt] ++
         [ChatMsg.assistantRaw completion.content completion.tool_calls] ++
         [ChatMsg.tool tc.id tc.name d],
       Request.llmCall true :: Request.capInvoke tc.name ::
         (reqs ++ [Request.llmCall false])) := by
  unfold generate_response
  simp only []
  rw [h1]
  simp only []
  rw [if_pos h2, h3]
  simp only [List.head?_cons]
  rw [if_pos h4, h5]
  simp only []
  rw [h6]
  simp only []
  rw [h3] at h7
  rw [h7]

/-- C5, witness: a turn whose first response lists TWO tool calls
dispatches only the first, re-queries without tools, and reports the
first call's usage (100, 70, 30), not the second's (7, 5, 2). -/
theorem c5_single_dispatch_first_usage_witness :
    generate_response c5Env [ChatMsg.system "s"] "code fever" =
      (TurnResult.ok (some "The suggested code is MG26")
        (some 100) (some 70) (some 30),
       [ChatMsg.system "s", ChatMsg.user "code fever",
        ChatMsg.assistantRaw none [c5Tc1, c5Tc2],
        ChatMsg.tool "call_1" "query_icd_11_api"
          (some [("fever", [(some "MG26", some "http://id.who.int/icd/1")])])],
       [Request.llmCall true, Request.capInvoke "query_icd_11_api",
        Request.auth, Request.search "fever", Request.llmCall false]) :=
  c5_single_dispatch_first_usage c5Env [ChatMsg.system "s"] "code fever"
    c5Comp1 c5Tc1 [c5Tc2] [("input", "fever")]
    (some [("fever", [(some "MG26", some "http://id.who.int/icd/1")])])
    [Request.auth, Request.search "fever"] c5Comp2
    rfl rfl rfl rfl rfl rfl rfl

/-- C6: when the first LLM response is a direct answer (finish signal
other than "tool_calls"), the turn issues exactly one external call (the
trace holds no `capInvoke`, `auth` or `search` — the lookup is never
invoked) and returns that response's content with that single call's
usage counts. -/
theorem c6_direct_answer_no_capability (env : Env) (messages0 : List ChatMsg)
    (prompt : String) (completion : Completion)
    (h1 : env.llm (messages0 ++ [ChatMsg.user prompt]) true = .ok completion)
    (h2 : completion.finish_reason ≠ "tool_calls") :
    generate_response env messages0 prompt =
      (TurnResult.ok completion.content (some completion.usage.total_tokens)
        (some completion.usage.prompt_tokens) (some completion.usage.completion_tokens),
       messages0 ++ [ChatMsg.user prompt], [Request.llmCall true]) :=
  gr_direct_answer env messages0 prompt completion h1 h2

/-- C6, witness: a direct "Hello" answer is returned as-is with its own
usage (12, 8, 4) and the turn's only external call is the one LLM
request. -/
theorem c6_direct_answer_no_capability_witness :
    generate_response c6Env [ChatMsg.system "s"] "hi" =
      (TurnResult.ok (some "Hello") (some 12) (some 8) (some 4),
       [ChatMsg.system "s", ChatMsg.user "hi"], [Request.llmCall true]) :=
  c6_direct_answer_no_capability c6Env [ChatMsg.system "s"] "hi"
    { content := some "Hello", finish_reason := "stop", tool_calls := []
      usage := { total_tokens := 12, prompt_tokens := 8, completion_tokens := 4 } }
    rfl (by decide)

/-- C7: across any sequence of session operations the head of the
messages list is the system message seeded by the initial prompt or by
the latest Clear Conversation, and a clear always reseeds the sequence
to exactly the one new system message. -/
theorem c7_system_message_invariant (sp0 : String) (ops : List SessionOp) :
    (runOps [ChatMsg.system sp0] ops).head? =
        some (ChatMsg.system (currentSystemPrompt sp0 ops)) ∧
      ∀ (msgs : List ChatMsg) (sp : String),
        applyOp msgs (SessionOp.clear sp) = [ChatMsg.system sp] ∧
          (applyOp msgs (SessionOp.clear sp)).length = 1 := by
  refine ⟨runOps_head ops [ChatMsg.system sp0] sp0 rfl, ?_⟩
  intro msgs sp
  exact ⟨rfl, rfl⟩

/-- C8: on every turn — in particular every failing one — the user
message appended at app.py line 67 stays in the transcript: the new
messages list is the old one, then the user message, then whatever the
turn added after it.  Nothing is rolled back on failure, so the next
turn's LLM call still carries this user message. -/
theorem c8_user_message_retained (env : Env) (msgs : List ChatMsg) (prompt : String) :
    ∃ suffix, (generate_response env msgs prompt).2.1 =
      msgs ++ (ChatMsg.user prompt :: suffix) :=
  gr_messages_append env msgs prompt

/-- C9, counterexample: after a successful direct-answer turn returning
the text "Answer A", the renderer appends that text only to the display
history `generated`; the messages list sent to the LLM ends at the user
message and holds no entry with the assistant's final text, so the next
turn's LLM call does not include it — contrary to the claim that the
final text is appended to the conversation sequence. -/
theorem c9_final_text_not_in_messages :
    rendererStep c9Env
        { generated := [], past := [], messages := [ChatMsg.system "sys"],
          model_name := [] } "hi" =
      { generated := [some "Answer A"], past := ["hi"],
        messages := [ChatMsg.system "sys", ChatMsg.user "hi"],
        model_name := ["gpt-4"] } := by
  rfl

/-- C9, amended: after every turn that returns (successful or with a
caught error — any non-crash turn, so in particular every successful
direct-answer AND capability turn), the final text is appended to the
display history `generated` (and the user text to `past`), while the
message sequence sent to the LLM becomes the old one plus the user
message followed by an `appendedShape` suffix: nothing, or the raw
assistant tool-call message, or that message plus the tool result.  The
assistant's final answer is never added to the LLM message sequence, so
later LLM calls do not include it. -/
theorem c9_final_text_to_display_history (env : Env) (st : SessionState)
    (user_input : String) (text : Option String) (t p c : Option Nat)
    (msgs : List ChatMsg) (tr : List Request)
    (h : generate_response env st.messages user_input =
      (TurnResult.ok text t p c, msgs, tr)) :
    rendererStep env st user_input =
        { generated := st.generated ++ [text]
          past := st.past ++ [user_input]
          messages := msgs
          model_name := st.model_name ++ [env.deployment] } ∧
      ∃ suffix, msgs = st.messages ++ (ChatMsg.user user_input :: suffix) ∧
        appendedShape suffix = true := by
  constructor
  · unfold rendererStep
    rw [h]
  · obtain ⟨suffix, hs, hshape⟩ := gr_messages_shape env st.messages user_input
    rw [h] at hs
    exact ⟨suffix, hs, hshape⟩

/-- C9, witness for the amended claim, on a capability turn: the final
text "Answer A" of the second LLM response lands in `generated`, while
the messages list gains only the user message, the raw tool-call
message and the tool result — not the final text. -/
theorem c9_final_text_to_display_history_witness :
    rendererStep c9CapEnv
        { generated := [], past := [], messages := [ChatMsg.system "sys"],
          model_name := [] } "code fever" =
        { generated := [] ++ [some "Answer A"], past := [] ++ ["code fever"],
          messages := [ChatMsg.system "sys", ChatMsg.user "code fever",
            ChatMsg.assistantRaw none [c9CapToolCall],
            ChatMsg.tool "call_9" "query_icd_11_api"
              (some [("fever", [(some "MG26", some "http://id.who.int/icd/1")])])],
          model_name := [] ++ ["gpt-4"] } ∧
      ∃ suffix, [ChatMsg.system "sys", ChatMsg.user "code fever",
            ChatMsg.assistantRaw none [c9CapToolCall],
            ChatMsg.tool "call_9" "query_icd_11_api"
              (some [("fever", [(some "MG26", some "http://id.who.int/icd/1")])])] =
          [ChatMsg.system "sys"] ++ (ChatMsg.user "code fever" :: suffix) ∧
        appendedShape suffix = true :=
  c9_final_text_to_display_history c9CapEnv
    { generated := [], past := [], messages := [ChatMsg.system "sys"], model_name := [] }
    "code fever" (some "Answer A") (some 100) (some 70) (some 30)
    [ChatMsg.system "sys", ChatMsg.user "code fever",
     ChatMsg.assistantRaw none [c9CapToolCall],
     ChatMsg.tool "call_9" "query_icd_11_api"
       (some [("fever", [(some "MG26", some "http://id.who.int/icd/1")])])]
    [Request.llmCall true, Request.capInvoke "query_icd_11_api",
     Request.auth, Request.search "fever", Request.llmCall false]
    rfl

/-- C10: for an input that is empty or all whitespace (no tokens after
splitting), the lookup still issues the token request — and only it —
and returns `None` because the loop body never runs; that `None` equals
the value returned when a token's search answers non-200, so the two
outcomes are indistinguishable to the caller. -/
theorem c10_blank_input_auth_only (env : IcdEnv) (tok : String) (input : String)
    (hauth : env.access_token = some tok)
    (hsplit : pySplit input = []) :
    query_icd_11_api env (some input) = (.ok none, [Request.auth]) ∧
      (query_icd_11_api env (some input)).1 =
        (query_icd_11_api c10FailIcd (some "aspirin")).1 := by
  have hmain : query_icd_11_api env (some input) = (.ok none, [Request.auth]) := by
    unfold query_icd_11_api
    rw [hauth]
    simp only []
    rw [hsplit]
    rfl
  exact ⟨hmain, by rw [hmain]; rfl⟩

/-- C10, witness: the all-whitespace input "   " splits to no tokens,
triggers only the token request and yields `None`. -/
theorem c10_blank_input_auth_only_witness :
    query_icd_11_api c10FailIcd (some "   ") = (.ok none, [Request.auth]) ∧
      (query_icd_11_api c10FailIcd (some "   ")).1 =
        (query_icd_11_api c10FailIcd (some "aspirin")).1 :=
  c10_blank_input_auth_only c10FailIcd "tok" "   " rfl rfl

end App
